import Mathlib

/-!
Verification of the GData service client (`gdata_service.py`) against its
natural-language specification.  The Python source is shallowly embedded:
the mutable `GDataService` object becomes an explicit `SessionState` record,
each method becomes a pure function from the incoming transport response(s)
and the current state to the new state plus an outcome value, and the
Python string primitives used by the source (`str.lstrip`, `str.splitlines`,
`str.find`, `str.startswith`, the `[\?\&]gsessionid=(\w*)` regex search) are
modelled character-for-character.
-/

namespace GData

/-- Authorization label used after a programmatic (ClientLogin) login. -/
def PROGRAMMATIC_AUTH_LABEL : String := "GoogleLogin auth"

/-- Authorization label used for externally supplied (AuthSub) tokens. -/
def AUTHSUB_AUTH_LABEL : String := "AuthSub token"

/-- The mutable fields of a `GDataService` instance.  The credential
configuration fields set in `__init__` are carried along unchanged; the five
name-mangled private fields (`__auth_token`, `__auth_type`, `__captcha_token`,
`__captcha_url`, `__gsessionid`) are the state the claims are about.  All are
`Option String`: `none` models Python `None`. -/
structure SessionState where
  email : Option String := none
  password : Option String := none
  account_type : String := "GOOGLE"
  service : Option String := none
  source : Option String := none
  server : Option String := none
  auth_token : Option String := none
  auth_type : Option String := none
  captcha_token : Option String := none
  captcha_url : Option String := none
  gsessionid : Option String := none
deriving Repr, DecidableEq

/-- The state of a freshly constructed `GDataService` (all private fields
`None`, per `__init__`). -/
def initGDataService : SessionState := {}

/-- Python `s.lstrip(chars)`: removes the longest leading run of characters
each of which occurs in `chars` (a character *set*, not a prefix). -/
def pyLstrip (chars s : String) : String :=
  ⟨s.data.dropWhile (fun c => chars.data.contains c)⟩

/-- Helper for `splitlines`: accumulates the current line (reversed). -/
def splitlinesAux : List Char → List Char → List String
  | [], acc => if acc.isEmpty then [] else [⟨acc.reverse⟩]
  | '\r' :: '\n' :: rest, acc => ⟨acc.reverse⟩ :: splitlinesAux rest []
  | '\r' :: rest, acc => ⟨acc.reverse⟩ :: splitlinesAux rest []
  | '\n' :: rest, acc => ⟨acc.reverse⟩ :: splitlinesAux rest []
  | c :: rest, acc => splitlinesAux rest (c :: acc)

/-- Python 2 `str.splitlines()`: splits on `\n`, `\r` and `\r\n`, dropping a
trailing empty line. -/
def splitlines (s : String) : List String := splitlinesAux s.data []

/-- Python `s.find(pat)` on character lists, as `Option`: `some i` is the
smallest index at which `pat` occurs, `none` plays the role of `-1`. -/
def pyFindList (pat : List Char) : List Char → Option Nat
  | [] => if pat.isPrefixOf ([] : List Char) then some 0 else none
  | c :: rest =>
    if pat.isPrefixOf (c :: rest) then some 0
    else (pyFindList pat rest).map (· + 1)

/-- Python `s.find(pat)` on strings (see `pyFindList`). -/
def pyFind (s pat : String) : Option Nat := pyFindList pat.data s.data

/-- Occurrence test: `pat` occurs contiguously in `s`.  This is the clean
substring notion the statements are phrased with; `pyFindList` is related to
it by `pyFindList_eq_none_iff`. -/
def hasSub (pat : List Char) : List Char → Bool
  | [] => pat.isPrefixOf ([] : List Char)
  | c :: rest => pat.isPrefixOf (c :: rest) || hasSub pat rest

/-- Python `s.startswith(pre)`. -/
def pyStartsWith (s pre : String) : Bool := pre.data.isPrefixOf s.data

/-- A transport response to the login / token-endpoint POST and GET requests:
numeric status plus the response body. -/
structure LoginResponse where
  status : Int
  body : String
deriving Repr, DecidableEq

/-- How a call to `ProgrammaticLogin` terminates: a normal `None` return, one
of the structured exceptions raised in the 403 branch, or the
`NameError`/`UnboundLocalError` hit when the error-dispatch `if` reads the
never-assigned local `error_line`. -/
inductive LoginResult where
  | ok
  | exCaptchaRequired (msg : String)
  | exBadAuthentication (msg : String)
  | exError (msg : String)
  | exNameError
deriving Repr, DecidableEq

/-- True exactly on the generic `Error` exception of the 403 dispatch. -/
def LoginResult.isGenericError : LoginResult → Bool
  | .exError _ => true
  | _ => false

/-- True exactly on the `BadAuthentication` exception. -/
def LoginResult.isBadAuth : LoginResult → Bool
  | .exBadAuthentication _ => true
  | _ => false

/-- One iteration of the status-200 loop of `ProgrammaticLogin`: an `Auth=`
line stores the `lstrip`-ped remainder as the token, marks the type
programmatic and clears residual captcha state; other lines do nothing. -/
def loginLine200 (s : SessionState) (line : String) : SessionState :=
  if pyStartsWith line "Auth=" then
    { s with auth_token := some (pyLstrip "Auth=" line),
             auth_type := some PROGRAMMATIC_AUTH_LABEL,
             captcha_token := none,
             captcha_url := none }
  else s

/-- One iteration of the status-403 loop of `ProgrammaticLogin`, carrying the
session state together with the (possibly still unassigned) local
`error_line`. -/
def loginLine403 (p : SessionState × Option String) (line : String) :
    SessionState × Option String :=
  if pyStartsWith line "Error=" then (p.1, some line)
  else if pyStartsWith line "CaptchaToken=" then
    ({ p.1 with captcha_token := some (pyLstrip "CaptchaToken=" line) }, p.2)
  else if pyStartsWith line "CaptchaUrl=" then
    let url := "https://www.google.com/accounts/Captcha" ++ pyLstrip "CaptchaUrl=" line
    ({ p.1 with captcha_url := some url }, p.2)
  else p

/-- The dispatch on the local `error_line` at the end of the 403 branch of
`ProgrammaticLogin`: reading the never-assigned local is the `NameError`
outcome, and the two non-captcha exits clear any captcha state gathered by
the loop before raising. -/
def login403dispatch (p : SessionState × Option String) :
    SessionState × LoginResult :=
  match p.2 with
  | none => (p.1, .exNameError)
  | some error_line =>
    if error_line = "Error=CaptchaRequired" then
      (p.1, .exCaptchaRequired "Captcha Required")
    else if error_line = "Error=BadAuthentication" then
      ({ p.1 with captcha_token := none, captcha_url := none },
       .exBadAuthentication "Incorrect username or password")
    else
      ({ p.1 with captcha_token := none, captcha_url := none },
       .exError "Server responded with a 403 code")

/-- `GDataService.ProgrammaticLogin`, given the transport response to the
`/accounts/ClientLogin` POST.  Status 200 folds `loginLine200` over the body
lines and returns normally; status 403 folds `loginLine403` and dispatches
via `login403dispatch`; any other status falls through and returns normally
with the state untouched. -/
def ProgrammaticLogin (resp : LoginResponse) (s : SessionState) :
    SessionState × LoginResult :=
  if resp.status = 200 then
    ((splitlines resp.body).foldl loginLine200 s, .ok)
  else if resp.status = 403 then
    login403dispatch ((splitlines resp.body).foldl loginLine403 (s, none))
  else (s, .ok)

/-- `GDataService._SetAuthSubToken` (also reached through the `auth_token`
property setter): stores the argument as the token — whatever it is,
including `None` — and unconditionally marks the type as AuthSub. -/
def SetAuthSubToken (s : SessionState) (t : Option String) : SessionState :=
  { s with auth_token := t, auth_type := some AUTHSUB_AUTH_LABEL }

/-- A structured exception of the token-management operations. -/
inductive AuthExc where
  | nonAuthSubToken
deriving Repr, DecidableEq

/-- Outcome of `UpgradeToSessionToken` / `RevokeAuthSubToken`: the state
after the call, the exception raised (if any) and the number of transport
calls performed. -/
structure AuthOutcome where
  state : SessionState
  raised : Option AuthExc
  calls : Nat
deriving Repr, DecidableEq

/-- One iteration of the status-200 loop of `UpgradeToSessionToken`: a
`Token=` line replaces the stored token by the `lstrip`-ped remainder. -/
def upgradeLine (s : SessionState) (line : String) : SessionState :=
  if pyStartsWith line "Token=" then
    { s with auth_token := some (pyLstrip "Token=" line) }
  else s

/-- `GDataService.UpgradeToSessionToken`, given the transport response to the
`/accounts/AuthSubSessionToken` GET.  Raises `NonAuthSubToken` without
touching the transport when the auth type is not the AuthSub label;
otherwise folds `upgradeLine` over the body lines when the status is 200 and
silently ignores any other status. -/
def UpgradeToSessionToken (resp : LoginResponse) (s : SessionState) : AuthOutcome :=
  if s.auth_type ≠ some AUTHSUB_AUTH_LABEL then ⟨s, some .nonAuthSubToken, 0⟩
  else if resp.status = 200 then
    ⟨(splitlines resp.body).foldl upgradeLine s, none, 1⟩
  else ⟨s, none, 1⟩

/-- `GDataService.RevokeAuthSubToken`, given the transport response to the
`/accounts/AuthSubRevokeToken` GET.  Raises `NonAuthSubToken` without
touching the transport when the auth type is not the AuthSub label; on
status 200 clears both token and type; any other status leaves the state
unchanged. -/
def RevokeAuthSubToken (resp : LoginResponse) (s : SessionState) : AuthOutcome :=
  if s.auth_type ≠ some AUTHSUB_AUTH_LABEL then ⟨s, some .nonAuthSubToken, 0⟩
  else if resp.status = 200 then
    ⟨{ s with auth_type := none, auth_token := none }, none, 1⟩
  else ⟨s, none, 1⟩

/-- Python truthiness of an optional string (`if self.__auth_token:`):
`None` and the empty string are falsy. -/
def pyTruthy : Option String → Bool
  | none => false
  | some t => !(t.data.isEmpty)

/-- Python `'%s' %` formatting of an optional string: `None` prints as
`"None"`. -/
def pyStr : Option String → String
  | none => "None"
  | some t => t

/-- The `Authorization` header value `'%s=%s' % (auth_type, auth_token)`. -/
def authHeader (s : SessionState) : String :=
  pyStr s.auth_type ++ "=" ++ pyStr s.auth_token

/-- Python dict assignment `d[k] = v` on an association-list model: replaces
the value of an existing key in place, otherwise appends the binding. -/
def dictSet (d : List (String × String)) (k v : String) : List (String × String) :=
  match d with
  | [] => [(k, v)]
  | (k', v') :: rest => if k' = k then (k, v) :: rest else (k', v') :: dictSet rest k v

/-- Python `d[k] if k in d.keys() else None` on the association-list model. -/
def dictGet (d : List (String × String)) (k : String) : Option String :=
  match d with
  | [] => none
  | (k', v) :: rest => if k' = k then some v else dictGet rest k

/-- HTTP headers, as a Python-dict model. -/
abbrev Headers := List (String × String)

/-- The header-merging step shared by the four CRUD operations: the
`Authorization` header is set only when the token is truthy. -/
def crudHeaders (s : SessionState) (extra_headers : Headers) : Headers :=
  if pyTruthy s.auth_token then dictSet extra_headers "Authorization" (authHeader s)
  else extra_headers

/-- The gsessionid-appending step shared by the four CRUD operations:
when a session id is known and `uri.find('gsessionid=') < 0`, append
`gsessionid=<id>` with `&` if `uri.find('?') > -1` and `?` otherwise. -/
def addGsessionid (s : SessionState) (uri : String) : String :=
  match s.gsessionid with
  | none => uri
  | some sid =>
    if pyFind uri "gsessionid=" = none then
      if pyFind uri "?" ≠ none then uri ++ "&gsessionid=" ++ sid
      else uri ++ "?gsessionid=" ++ sid
    else uri

/-- Word characters of the regex `\w` (ASCII, as in Python 2 `re` without
flags). -/
def isWordChar (c : Char) : Bool := c.isAlphanum || c = '_'

/-- Helper for `scanGsessionid`: leftmost match of the regex
`[\?\&]gsessionid=(\w*)`, returning group 1. -/
def scanGsessionidList : List Char → Option String
  | [] => none
  | c :: rest =>
    if (c = '?' || c = '&') && "gsessionid=".data.isPrefixOf rest then
      some ⟨(rest.drop 11).takeWhile isWordChar⟩
    else scanGsessionidList rest

/-- `re.compile('[\?\&]gsessionid=(\w*)').search(location)` followed by
`m.group(1)`, as used by the redirect branch of every CRUD operation. -/
def scanGsessionid (location : String) : Option String :=
  scanGsessionidList location.data

/-- The session-state update of the redirect branch: store group 1 of the
`gsessionid` pattern match when the search succeeds. -/
def storeGsessionid (s : SessionState) (location : String) : SessionState :=
  match scanGsessionid location with
  | some g => { s with gsessionid := some g }
  | none => s

/-- A transport response to a CRUD request: numeric status, body, the
`Location` header (`getheader('Location')`) and the reason phrase. -/
structure Response where
  status : Int
  body : String
  location : Option String
  reason : String
deriving Repr, DecidableEq

/-- A parsed feed document (`gdata.GDataFeedFromString`), opaque to this
core. -/
structure Feed where
  xml : String
deriving Repr, DecidableEq

/-- A parsed entry document (`atom.EntryFromString`), opaque to this core. -/
structure Entry where
  xml : String
deriving Repr, DecidableEq

/-- The value a CRUD operation returns on success. -/
inductive CrudResult where
  | feed (f : Feed)
  | entry (e : Entry)
  | raw (body : String)
  | deleted
deriving Repr, DecidableEq

/-- The payload of a raised `RequestError`. -/
structure ReqError where
  status : Int
  reason : String
  body : String
deriving Repr, DecidableEq

/-- How a CRUD operation terminates: a returned value or a raised
`RequestError`. -/
inductive CrudReturn where
  | value (r : CrudResult)
  | requestError (e : ReqError)
deriving Repr, DecidableEq

/-- A request handed to the external transport
(`app_service.AtomService.Get/Post/Put/Delete`). -/
structure Request where
  method : String
  uri : String
  headers : Headers
  body : Option String
  url_params : Option (List (String × String))
  escape_params : Bool
deriving Repr, DecidableEq

/-- Everything observable about one CRUD call: the requests handed to the
transport (in order), the final session state, and the outcome (`none` when
the supplied transport script was exhausted before the call finished). -/
structure CrudOutcome where
  trace : List Request
  state : SessionState
  result : Option CrudReturn
deriving Repr, DecidableEq

/-- `GDataService.Get`.  The external transport is a script of responses
consumed one per request; the external XML parsers are the parameters `pf`
(feed) and `pe` (entry), returning `none` exactly when parsing fails. -/
def Get (pf : String → Option Feed) (pe : String → Option Entry) :
    List Response → SessionState → String → Headers → Int → CrudOutcome
  | [], s, _, _, _ => ⟨[], s, none⟩
  | resp :: rest, s, uri, extra_headers, redirects_remaining =>
    let hdrs := crudHeaders s extra_headers
    let uri2 := addGsessionid s uri
    let req : Request := ⟨"GET", uri2, hdrs, none, none, true⟩
    if resp.status = 200 then
      match pf resp.body with
      | some f => ⟨[req], s, some (.value (.feed f))⟩
      | none =>
        match pe resp.body with
        | some e => ⟨[req], s, some (.value (.entry e))⟩
        | none => ⟨[req], s, some (.value (.raw resp.body))⟩
    else if resp.status = 302 then
      if redirects_remaining > 0 then
        match resp.location with
        | some location =>
          let out := Get pf pe rest (storeGsessionid s location) location hdrs
            (redirects_remaining - 1)
          ⟨req :: out.trace, out.state, out.result⟩
        | none =>
          ⟨[req], s, some (.requestError
            ⟨resp.status, "302 received without Location header", resp.body⟩)⟩
      else
        ⟨[req], s, some (.requestError
          ⟨resp.status, "Redirect received, but redirects_remaining <= 0", resp.body⟩)⟩
    else ⟨[req], s, some (.requestError ⟨resp.status, resp.reason, resp.body⟩)⟩

/-- `GDataService.Post` (success status 201; `data`, `url_params` and
`escape_params` are forwarded to the transport and to the recursive redirect
call). -/
def Post (pf : String → Option Feed) (pe : String → Option Entry) :
    List Response → SessionState → String → String → Headers →
      Option (List (String × String)) → Bool → Int → CrudOutcome
  | [], s, _, _, _, _, _, _ => ⟨[], s, none⟩
  | resp :: rest, s, data, uri, extra_headers, url_params, escape_params,
      redirects_remaining =>
    let hdrs := crudHeaders s extra_headers
    let uri2 := addGsessionid s uri
    let req : Request := ⟨"POST", uri2, hdrs, some data, url_params, escape_params⟩
    if resp.status = 201 then
      match pf resp.body with
      | some f => ⟨[req], s, some (.value (.feed f))⟩
      | none =>
        match pe resp.body with
        | some e => ⟨[req], s, some (.value (.entry e))⟩
        | none => ⟨[req], s, some (.value (.raw resp.body))⟩
    else if resp.status = 302 then
      if redirects_remaining > 0 then
        match resp.location with
        | some location =>
          let out := Post pf pe rest (storeGsessionid s location) data location hdrs
            url_params escape_params (redirects_remaining - 1)
          ⟨req :: out.trace, out.state, out.result⟩
        | none =>
          ⟨[req], s, some (.requestError
            ⟨resp.status, "302 received without Location header", resp.body⟩)⟩
      else
        ⟨[req], s, some (.requestError
          ⟨resp.status, "Redirect received, but redirects_remaining <= 0", resp.body⟩)⟩
    else ⟨[req], s, some (.requestError ⟨resp.status, resp.reason, resp.body⟩)⟩

/-- `GDataService.Put` (success status 200). -/
def Put (pf : String → Option Feed) (pe : String → Option Entry) :
    List Response → SessionState → String → String → Headers →
      Option (List (String × String)) → Bool → Int → CrudOutcome
  | [], s, _, _, _, _, _, _ => ⟨[], s, none⟩
  | resp :: rest, s, data, uri, extra_headers, url_params, escape_params,
      redirects_remaining =>
    let hdrs := crudHeaders s extra_headers
    let uri2 := addGsessionid s uri
    let req : Request := ⟨"PUT", uri2, hdrs, some data, url_params, escape_params⟩
    if resp.status = 200 then
      match pf resp.body with
      | some f => ⟨[req], s, some (.value (.feed f))⟩
      | none =>
        match pe resp.body with
        | some e => ⟨[req], s, some (.value (.entry e))⟩
        | none => ⟨[req], s, some (.value (.raw resp.body))⟩
    else if resp.status = 302 then
      if redirects_remaining > 0 then
        match resp.location with
        | some location =>
          let out := Put pf pe rest (storeGsessionid s location) data location hdrs
            url_params escape_params (redirects_remaining - 1)
          ⟨req :: out.trace, out.state, out.result⟩
        | none =>
          ⟨[req], s, some (.requestError
            ⟨resp.status, "302 received without Location header", resp.body⟩)⟩
      else
        ⟨[req], s, some (.requestError
          ⟨resp.status, "Redirect received, but redirects_remaining <= 0", resp.body⟩)⟩
    else ⟨[req], s, some (.requestError ⟨resp.status, resp.reason, resp.body⟩)⟩

/-- `GDataService.Delete` (success status 200, returning `True`). -/
def Delete (pf : String → Option Feed) (pe : String → Option Entry) :
    List Response → SessionState → String → Headers →
      Option (List (String × String)) → Bool → Int → CrudOutcome
  | [], s, _, _, _, _, _ => ⟨[], s, none⟩
  | resp :: rest, s, uri, extra_headers, url_params, escape_params,
      redirects_remaining =>
    let hdrs := crudHeaders s extra_headers
    let uri2 := addGsessionid s uri
    let req : Request := ⟨"DELETE", uri2, hdrs, none, url_params, escape_params⟩
    if resp.status = 200 then
      ⟨[req], s, some (.value .deleted)⟩
    else if resp.status = 302 then
      if redirects_remaining > 0 then
        match resp.location with
        | some location =>
          let out := Delete pf pe rest (storeGsessionid s location) location hdrs
            url_params escape_params (redirects_remaining - 1)
          ⟨req :: out.trace, out.state, out.result⟩
        | none =>
          ⟨[req], s, some (.requestError
            ⟨resp.status, "302 received without Location header", resp.body⟩)⟩
      else
        ⟨[req], s, some (.requestError
          ⟨resp.status, "Redirect received, but redirects_remaining <= 0", resp.body⟩)⟩
    else ⟨[req], s, some (.requestError ⟨resp.status, resp.reason, resp.body⟩)⟩

/-- The `Query` object: the base feed path, the ordered category list and the
dict contents (`Query` subclasses `dict`). -/
structure Query where
  feed : Option String
  categories : List String
  params : List (String × String)
deriving Repr, DecidableEq

/-- `Query._SetTextQuery` (the `text_query` property setter, key `q`). -/
def Query.SetTextQuery (q : Query) (v : String) : Query :=
  { q with params := dictSet q.params "q" v }

/-- `Query._GetTextQuery` (the `text_query` property getter, key `q`). -/
def Query.GetTextQuery (q : Query) : Option String := dictGet q.params "q"

/-- `Query._SetAuthor` (the `author` property setter). -/
def Query.SetAuthor (q : Query) (v : String) : Query :=
  { q with params := dictSet q.params "author" v }

/-- `Query._GetAuthor` (the `author` property getter): absent key gives
`None`. -/
def Query.GetAuthor (q : Query) : Option String := dictGet q.params "author"

/-- `Query._SetMaxResults` (the `max_results` property setter, key
`max-results`). -/
def Query.SetMaxResults (q : Query) (v : String) : Query :=
  { q with params := dictSet q.params "max-results" v }

/-- `Query._GetMaxResults` (the `max_results` property getter, key
`max-results`): absent key gives `None`. -/
def Query.GetMaxResults (q : Query) : Option String := dictGet q.params "max-results"

/-- `Query.__init__`: empty dict and category list, then the truthy
`text_query` is stored under `q`, the `params` dict entries are copied in,
and the `categories` list is appended. -/
def Query.init (feed : Option String) (text_query : Option String)
    (params : Option (List (String × String))) (categories : Option (List String)) :
    Query :=
  let q : Query := ⟨feed, [], []⟩
  let q := match text_query with
    | some t => if pyTruthy (some t) then q.SetTextQuery t else q
    | none => q
  let q := match params with
    | some ps => ps.foldl (fun q kv => { q with params := dictSet q.params kv.1 kv.2 }) q
    | none => q
  match categories with
  | some cs => { q with categories := q.categories ++ cs }
  | none => q

/-- A public operation on the session state, for the reachable-state
invariant: the `auth_token` property setter, `ProgrammaticLogin`,
`UpgradeToSessionToken`, `RevokeAuthSubToken` and the four CRUD operations
(each with its transport script, parsers and arguments). -/
inductive Op where
  | setToken (t : Option String)
  | login (resp : LoginResponse)
  | upgrade (resp : LoginResponse)
  | revoke (resp : LoginResponse)
  | doGet (pf : String → Option Feed) (pe : String → Option Entry)
      (tr : List Response) (uri : String) (h : Headers) (rr : Int)
  | doPost (pf : String → Option Feed) (pe : String → Option Entry)
      (tr : List Response) (data uri : String) (h : Headers)
      (up : Option (List (String × String))) (esc : Bool) (rr : Int)
  | doPut (pf : String → Option Feed) (pe : String → Option Entry)
      (tr : List Response) (data uri : String) (h : Headers)
      (up : Option (List (String × String))) (esc : Bool) (rr : Int)
  | doDelete (pf : String → Option Feed) (pe : String → Option Entry)
      (tr : List Response) (uri : String) (h : Headers)
      (up : Option (List (String × String))) (esc : Bool) (rr : Int)

/-- True exactly on the operation that assigns `None` to the `auth_token`
property. -/
def Op.isSetTokenNone : Op → Bool
  | .setToken none => true
  | _ => false

/-- The session state after one public operation. -/
def applyOp (s : SessionState) : Op → SessionState
  | .setToken t => SetAuthSubToken s t
  | .login r => (ProgrammaticLogin r s).1
  | .upgrade r => (UpgradeToSessionToken r s).state
  | .revoke r => (RevokeAuthSubToken r s).state
  | .doGet pf pe tr uri h rr => (Get pf pe tr s uri h rr).state
  | .doPost pf pe tr d uri h up esc rr => (Post pf pe tr s d uri h up esc rr).state
  | .doPut pf pe tr d uri h up esc rr => (Put pf pe tr s d uri h up esc rr).state
  | .doDelete pf pe tr uri h up esc rr => (Delete pf pe tr s uri h up esc rr).state

/-- The session state after a sequence of public operations. -/
def runOps (s : SessionState) (ops : List Op) : SessionState :=
  ops.foldl applyOp s

/-- The spec's session invariant: the auth type is set exactly when the auth
token is set. -/
def authInv (s : SessionState) : Prop :=
  s.auth_type.isSome = s.auth_token.isSome

/-- Modelled from the claim's words (C8): the query string of a URI is the
portion after the first `?` (empty when there is none). -/
def queryStringOf (uri : String) : String :=
  ⟨(uri.data.dropWhile (· ≠ '?')).drop 1⟩

/-- Modelled from the claim's words (C8): the URI the claim says is passed
to the transport — unchanged when `gsessionid` occurs in the query string,
otherwise with `gsessionid=<id>` appended using `&` when the URI already
contains `?` and `?` otherwise. -/
def claimTransportUri (sid uri : String) : String :=
  if hasSub "gsessionid".data (queryStringOf uri).data then uri
  else if hasSub "?".data uri.data then uri ++ "&gsessionid=" ++ sid
  else uri ++ "?gsessionid=" ++ sid


/-! ### Helper lemmas -/

/-- True exactly when a `ProgrammaticLogin` call raised (did not return
normally). -/
def LoginResult.raised : LoginResult → Bool
  | .ok => false
  | _ => true

theorem dictGet_dictSet_self (d : List (String × String)) (k v : String) :
    dictGet (dictSet d k v) k = some v := by
  induction d with
  | nil => simp [dictSet, dictGet]
  | cons kv rest ih =>
    obtain ⟨k', v'⟩ := kv
    by_cases h : k' = k
    · simp [dictSet, dictGet, h]
    · simp [dictSet, dictGet, h, ih]

theorem dictGet_dictSet_ne (d : List (String × String)) (k k' v : String)
    (h : k ≠ k') : dictGet (dictSet d k v) k' = dictGet d k' := by
  induction d with
  | nil => simp [dictSet, dictGet, h]
  | cons kv rest ih =>
    obtain ⟨a, b⟩ := kv
    by_cases ha : a = k
    · subst ha
      simp [dictSet, dictGet, h, Ne.symm h]
    · simp [dictSet, dictGet, ha, ih]

theorem dictGet_paramsFold (ps : List (String × String)) (q : Query) (k : String)
    (h : ∀ kv ∈ ps, kv.1 ≠ k) :
    dictGet (ps.foldl (fun q kv => { q with params := dictSet q.params kv.1 kv.2 }) q).params k
      = dictGet q.params k := by
  induction ps generalizing q with
  | nil => rfl
  | cons kv rest ih =>
    rw [List.foldl_cons, ih _ (fun kv' h' => h kv' (List.mem_cons_of_mem _ h'))]
    exact dictGet_dictSet_ne _ _ _ _ (h kv (List.mem_cons_self _ _))

theorem loginLine403_snd (p : SessionState × Option String) (l : String)
    (h : pyStartsWith l "Error=" = false) : (loginLine403 p l).2 = p.2 := by
  unfold loginLine403
  simp only [h, Bool.false_eq_true, if_false]
  split
  · rfl
  · split <;> rfl

theorem foldl_loginLine403_none (lines : List String) (s : SessionState)
    (h : ∀ l ∈ lines, pyStartsWith l "Error=" = false) :
    (lines.foldl loginLine403 (s, none)).2 = none := by
  suffices main : ∀ (p : SessionState × Option String), p.2 = none →
      (lines.foldl loginLine403 p).2 = none from main (s, none) rfl
  induction lines with
  | nil => intro p hp; exact hp
  | cons l rest ih =>
    intro p hp
    rw [List.foldl_cons]
    refine ih (fun l' h' => h l' (List.mem_cons_of_mem _ h')) _ ?_
    rw [loginLine403_snd _ _ (h l (List.mem_cons_self _ _)), hp]

theorem loginLine200_captcha_none (s : SessionState) (l : String)
    (h : s.captcha_token = none ∧ s.captcha_url = none) :
    (loginLine200 s l).captcha_token = none ∧ (loginLine200 s l).captcha_url = none := by
  unfold loginLine200
  split
  · exact ⟨rfl, rfl⟩
  · exact h

theorem foldl_loginLine200_captcha_pres (lines : List String) (s : SessionState)
    (h : s.captcha_token = none ∧ s.captcha_url = none) :
    (lines.foldl loginLine200 s).captcha_token = none ∧
      (lines.foldl loginLine200 s).captcha_url = none := by
  induction lines generalizing s with
  | nil => exact h
  | cons l rest ih => exact ih _ (loginLine200_captcha_none s l h)

theorem foldl_loginLine200_captcha (lines : List String) (s : SessionState)
    (h : ∃ l ∈ lines, pyStartsWith l "Auth=" = true) :
    (lines.foldl loginLine200 s).captcha_token = none ∧
      (lines.foldl loginLine200 s).captcha_url = none := by
  induction lines generalizing s with
  | nil => simp at h
  | cons l rest ih =>
    rw [List.foldl_cons]
    by_cases hA : pyStartsWith l "Auth=" = true
    · refine foldl_loginLine200_captcha_pres rest _ ?_
      unfold loginLine200
      simp [hA]
    · rcases h with ⟨l', hl', hA'⟩
      rcases List.mem_cons.mp hl' with rfl | hmem
      · exact absurd hA' hA
      · exact ih _ ⟨l', hmem, hA'⟩

theorem login403dispatch_clears (p : SessionState × Option String)
    (h : (login403dispatch p).2.isBadAuth = true ∨
         (login403dispatch p).2.isGenericError = true) :
    (login403dispatch p).1.captcha_token = none ∧
      (login403dispatch p).1.captcha_url = none := by
  obtain ⟨s, el⟩ := p
  unfold login403dispatch at *
  rcases el with _ | el
  · simp [LoginResult.isBadAuth, LoginResult.isGenericError] at h
  · by_cases hc : el = "Error=CaptchaRequired"
    · simp [hc, LoginResult.isBadAuth, LoginResult.isGenericError] at h
    · by_cases hb : el = "Error=BadAuthentication" <;> simp [hc, hb]

/-! ### C1 -/

/-- C1: for every CRUD operation receiving a transport status of 302: when
`redirectsRemaining > 0` and a `Location` header is present, the operation
scans the location for a `gsessionid` query parameter, stores it in the
session if found (`storeGsessionid`), and its outcome and final state are
those of the same operation recursing against the new location with
`redirectsRemaining - 1`; a GET with `redirectsRemaining = 1` hitting a 302
with `Location: /next?gsessionid=ABC` followed by a 200 entry body succeeds,
returns that entry and leaves the session id `ABC`; and when the `Location`
header is absent or `redirectsRemaining ≤ 0` (regardless of `Location`), the
operation fails with a `RequestError`. -/
theorem c1_redirect_handling :
    (∀ (pf : String → Option Feed) (pe : String → Option Entry) (resp : Response)
        (rest : List Response) (s : SessionState) (uri : String) (hd : Headers)
        (rr : Int) (loc : String),
      resp.status = 302 → rr > 0 → resp.location = some loc →
      (Get pf pe (resp :: rest) s uri hd rr).state
          = (Get pf pe rest (storeGsessionid s loc) loc (crudHeaders s hd) (rr - 1)).state ∧
      (Get pf pe (resp :: rest) s uri hd rr).result
          = (Get pf pe rest (storeGsessionid s loc) loc (crudHeaders s hd) (rr - 1)).result) ∧
    (∀ (pf : String → Option Feed) (pe : String → Option Entry) (resp : Response)
        (rest : List Response) (s : SessionState) (uri : String) (hd : Headers)
        (rr : Int),
      resp.status = 302 → (resp.location = none ∨ rr ≤ 0) →
      ∃ err : ReqError,
        (Get pf pe (resp :: rest) s uri hd rr).result = some (.requestError err)) ∧
    (∀ (pf : String → Option Feed) (pe : String → Option Entry) (resp : Response)
        (rest : List Response) (s : SessionState) (data uri : String) (hd : Headers)
        (up : Option (List (String × String))) (esc : Bool) (rr : Int) (loc : String),
      resp.status = 302 → rr > 0 → resp.location = some loc →
      (Post pf pe (resp :: rest) s data uri hd up esc rr).state
          = (Post pf pe rest (storeGsessionid s loc) data loc (crudHeaders s hd) up esc
              (rr - 1)).state ∧
      (Post pf pe (resp :: rest) s data uri hd up esc rr).result
          = (Post pf pe rest (storeGsessionid s loc) data loc (crudHeaders s hd) up esc
              (rr - 1)).result) ∧
    (∀ (pf : String → Option Feed) (pe : String → Option Entry) (resp : Response)
        (rest : List Response) (s : SessionState) (data uri : String) (hd : Headers)
        (up : Option (List (String × String))) (esc : Bool) (rr : Int),
      resp.status = 302 → (resp.location = none ∨ rr ≤ 0) →
      ∃ err : ReqError,
        (Post pf pe (resp :: rest) s data uri hd up esc rr).result
          = some (.requestError err)) ∧
    (∀ (pf : String → Option Feed) (pe : String → Option Entry) (resp : Response)
        (rest : List Response) (s : SessionState) (data uri : String) (hd : Headers)
        (up : Option (List (String × String))) (esc : Bool) (rr : Int) (loc : String),
      resp.status = 302 → rr > 0 → resp.location = some loc →
      (Put pf pe (resp :: rest) s data uri hd up esc rr).state
          = (Put pf pe rest (storeGsessionid s loc) data loc (crudHeaders s hd) up esc
              (rr - 1)).state ∧
      (Put pf pe (resp :: rest) s data uri hd up esc rr).result
          = (Put pf pe rest (storeGsessionid s loc) data loc (crudHeaders s hd) up esc
              (rr - 1)).result) ∧
    (∀ (pf : String → Option Feed) (pe : String → Option Entry) (resp : Response)
        (rest : List Response) (s : SessionState) (data uri : String) (hd : Headers)
        (up : Option (List (String × String))) (esc : Bool) (rr : Int),
      resp.status = 302 → (resp.location = none ∨ rr ≤ 0) →
      ∃ err : ReqError,
        (Put pf pe (resp :: rest) s data uri hd up esc rr).result
          = some (.requestError err)) ∧
    (∀ (pf : String → Option Feed) (pe : String → Option Entry) (resp : Response)
        (rest : List Response) (s : SessionState) (uri : String) (hd : Headers)
        (up : Option (List (String × String))) (esc : Bool) (rr : Int) (loc : String),
      resp.status = 302 → rr > 0 → resp.location = some loc →
      (Delete pf pe (resp :: rest) s uri hd up esc rr).state
          = (Delete pf pe rest (storeGsessionid s loc) loc (crudHeaders s hd) up esc
              (rr - 1)).state ∧
      (Delete pf pe (resp :: rest) s uri hd up esc rr).result
          = (Delete pf pe rest (storeGsessionid s loc) loc (crudHeaders s hd) up esc
              (rr - 1)).result) ∧
    (∀ (pf : String → Option Feed) (pe : String → Option Entry) (resp : Response)
        (rest : List Response) (s : SessionState) (uri : String) (hd : Headers)
        (up : Option (List (String × String))) (esc : Bool) (rr : Int),
      resp.status = 302 → (resp.location = none ∨ rr ≤ 0) →
      ∃ err : ReqError,
        (Delete pf pe (resp :: rest) s uri hd up esc rr).result
          = some (.requestError err)) ∧
    (∀ (pf : String → Option Feed) (pe : String → Option Entry) (e : Entry)
        (b : String) (s : SessionState) (uri : String) (hd : Headers) (r1 r2 : String),
      pf b = none → pe b = some e →
      (Get pf pe [⟨302, "", some "/next?gsessionid=ABC", r1⟩, ⟨200, b, none, r2⟩]
          s uri hd 1).result = some (.value (.entry e)) ∧
      (Get pf pe [⟨302, "", some "/next?gsessionid=ABC", r1⟩, ⟨200, b, none, r2⟩]
          s uri hd 1).state.gsessionid = some "ABC") := by
  have hscan : ∀ s : SessionState,
      storeGsessionid s "/next?gsessionid=ABC" = { s with gsessionid := some "ABC" } := by
    intro s
    have h1 : scanGsessionid "/next?gsessionid=ABC" = some "ABC" := by decide
    unfold storeGsessionid
    rw [h1]
  refine ⟨?_, ?_, ?_, ?_, ?_, ?_, ?_, ?_, ?_⟩
  · intro pf pe resp rest s uri hd rr loc h302 hrr hloc
    constructor <;> simp [Get, h302, hloc, hrr]
  · intro pf pe resp rest s uri hd rr h302 hfail
    rcases hfail with hloc | hle
    · by_cases hgt : rr > 0
      · exact ⟨⟨resp.status, "302 received without Location header", resp.body⟩,
          by simp [Get, h302, hloc, hgt]⟩
      · exact ⟨⟨resp.status, "Redirect received, but redirects_remaining <= 0", resp.body⟩,
          by simp [Get, h302, hgt]⟩
    · have hgt : ¬ rr > 0 := by omega
      exact ⟨⟨resp.status, "Redirect received, but redirects_remaining <= 0", resp.body⟩,
        by simp [Get, h302, hgt]⟩
  · intro pf pe resp rest s data uri hd up esc rr loc h302 hrr hloc
    constructor <;> simp [Post, h302, hloc, hrr]
  · intro pf pe resp rest s data uri hd up esc rr h302 hfail
    rcases hfail with hloc | hle
    · by_cases hgt : rr > 0
      · exact ⟨⟨resp.status, "302 received without Location header", resp.body⟩,
          by simp [Post, h302, hloc, hgt]⟩
      · exact ⟨⟨resp.status, "Redirect received, but redirects_remaining <= 0", resp.body⟩,
          by simp [Post, h302, hgt]⟩
    · have hgt : ¬ rr > 0 := by omega
      exact ⟨⟨resp.status, "Redirect received, but redirects_remaining <= 0", resp.body⟩,
        by simp [Post, h302, hgt]⟩
  · intro pf pe resp rest s data uri hd up esc rr loc h302 hrr hloc
    constructor <;> simp [Put, h302, hloc, hrr]
  · intro pf pe resp rest s data uri hd up esc rr h302 hfail
    rcases hfail with hloc | hle
    · by_cases hgt : rr > 0
      · exact ⟨⟨resp.status, "302 received without Location header", resp.body⟩,
          by simp [Put, h302, hloc, hgt]⟩
      · exact ⟨⟨resp.status, "Redirect received, but redirects_remaining <= 0", resp.body⟩,
          by simp [Put, h302, hgt]⟩
    · have hgt : ¬ rr > 0 := by omega
      exact ⟨⟨resp.status, "Redirect received, but redirects_remaining <= 0", resp.body⟩,
        by simp [Put, h302, hgt]⟩
  · intro pf pe resp rest s uri hd up esc rr loc h302 hrr hloc
    constructor <;> simp [Delete, h302, hloc, hrr]
  · intro pf pe resp rest s uri hd up esc rr h302 hfail
    rcases hfail with hloc | hle
    · by_cases hgt : rr > 0
      · exact ⟨⟨resp.status, "302 received without Location header", resp.body⟩,
          by simp [Delete, h302, hloc, hgt]⟩
      · exact ⟨⟨resp.status, "Redirect received, but redirects_remaining <= 0", resp.body⟩,
          by simp [Delete, h302, hgt]⟩
    · have hgt : ¬ rr > 0 := by omega
      exact ⟨⟨resp.status, "Redirect received, but redirects_remaining <= 0", resp.body⟩,
        by simp [Delete, h302, hgt]⟩
  · intro pf pe e b s uri hd r1 r2 hpf hpe
    constructor <;> simp [Get, hscan, hpf, hpe]

/-- C1 witness: every conjunct applied at concrete inputs — the redirect
recursion equations, the `RequestError` failures for a missing `Location`
and an exhausted budget, and the two-hop GET scenario returning the entry
with session id `ABC`. -/
theorem c1_redirect_handling_witness :
    ((Get (fun _ => none) (fun _ => none)
        [⟨302, "", some "/next?gsessionid=ABC", "Found"⟩]
        initGDataService "/s" [] 4).state
      = (Get (fun _ => none) (fun _ => none) []
          (storeGsessionid initGDataService "/next?gsessionid=ABC")
          "/next?gsessionid=ABC" (crudHeaders initGDataService []) (4 - 1)).state) ∧
    (∃ err : ReqError,
      (Get (fun _ => none) (fun _ => none) [⟨302, "", none, "Found"⟩]
        initGDataService "/s" [] 4).result = some (.requestError err)) ∧
    (∃ err : ReqError,
      (Get (fun _ => none) (fun _ => none)
        [⟨302, "", some "/next?gsessionid=ABC", "Found"⟩]
        initGDataService "/s" [] 0).result = some (.requestError err)) ∧
    ((Post (fun _ => none) (fun _ => none)
        [⟨302, "", some "/next?gsessionid=ABC", "Found"⟩]
        initGDataService "d" "/s" [] none true 4).state
      = (Post (fun _ => none) (fun _ => none) []
          (storeGsessionid initGDataService "/next?gsessionid=ABC")
          "d" "/next?gsessionid=ABC" (crudHeaders initGDataService []) none true
          (4 - 1)).state) ∧
    (∃ err : ReqError,
      (Post (fun _ => none) (fun _ => none) [⟨302, "", none, "Found"⟩]
        initGDataService "d" "/s" [] none true 4).result = some (.requestError err)) ∧
    ((Put (fun _ => none) (fun _ => none)
        [⟨302, "", some "/next?gsessionid=ABC", "Found"⟩]
        initGDataService "d" "/s" [] none true 3).state
      = (Put (fun _ => none) (fun _ => none) []
          (storeGsessionid initGDataService "/next?gsessionid=ABC")
          "d" "/next?gsessionid=ABC" (crudHeaders initGDataService []) none true
          (3 - 1)).state) ∧
    (∃ err : ReqError,
      (Put (fun _ => none) (fun _ => none) [⟨302, "", none, "Found"⟩]
        initGDataService "d" "/s" [] none true 3).result = some (.requestError err)) ∧
    ((Delete (fun _ => none) (fun _ => none)
        [⟨302, "", some "/next?gsessionid=ABC", "Found"⟩]
        initGDataService "/s" [] none true 4).state
      = (Delete (fun _ => none) (fun _ => none) []
          (storeGsessionid initGDataService "/next?gsessionid=ABC")
          "/next?gsessionid=ABC" (crudHeaders initGDataService []) none true
          (4 - 1)).state) ∧
    (∃ err : ReqError,
      (Delete (fun _ => none) (fun _ => none) [⟨302, "", none, "Found"⟩]
        initGDataService "/s" [] none true 4).result = some (.requestError err)) ∧
    ((Get (fun _ => none) (fun b => some ⟨b⟩)
        [⟨302, "", some "/next?gsessionid=ABC", "Found"⟩, ⟨200, "ent", none, "OK"⟩]
        initGDataService "/s" [] 1).result = some (.value (.entry ⟨"ent"⟩)) ∧
     (Get (fun _ => none) (fun b => some ⟨b⟩)
        [⟨302, "", some "/next?gsessionid=ABC", "Found"⟩, ⟨200, "ent", none, "OK"⟩]
        initGDataService "/s" [] 1).state.gsessionid = some "ABC") :=
  ⟨(c1_redirect_handling.1 _ _ _ _ _ _ _ 4 _ rfl (by decide) rfl).1,
   c1_redirect_handling.2.1 _ _ _ _ _ _ _ 4 rfl (Or.inl rfl),
   c1_redirect_handling.2.1 _ _ _ _ _ _ _ 0 rfl (Or.inr (by decide)),
   (c1_redirect_handling.2.2.1 _ _ _ _ _ _ _ _ _ _ 4 _ rfl (by decide) rfl).1,
   c1_redirect_handling.2.2.2.1 _ _ _ _ _ _ _ _ _ _ 4 rfl (Or.inl rfl),
   (c1_redirect_handling.2.2.2.2.1 _ _ _ _ _ _ _ _ _ _ 3 _ rfl (by decide) rfl).1,
   c1_redirect_handling.2.2.2.2.2.1 _ _ _ _ _ _ _ _ _ _ 3 rfl (Or.inl rfl),
   (c1_redirect_handling.2.2.2.2.2.2.1 _ _ _ _ _ _ _ _ _ 4 _ rfl (by decide) rfl).1,
   c1_redirect_handling.2.2.2.2.2.2.2.1 _ _ _ _ _ _ _ _ _ 4 rfl (Or.inl rfl),
   c1_redirect_handling.2.2.2.2.2.2.2.2 _ _ ⟨"ent"⟩ "ent" _ _ _ "Found" "OK" rfl rfl⟩

/-! ### C2 -/

/-- C2 (code bug witnessed at a failing input): a 200 login response whose
body is the single line `Auth=ABC` leaves the token `"BC"`, not `"ABC"`:
`str.lstrip('Auth=')` strips the leading character *set* `A,u,t,h,=`, not
the prefix `Auth=`.  The auth type and the captcha clearing do behave as the
claim states. -/
theorem c2_auth_lstrip_divergence :
    (ProgrammaticLogin ⟨200, "Auth=ABC"⟩
        { initGDataService with captcha_token := some "t", captcha_url := some "u" })
      = ({ initGDataService with
            auth_token := some "BC",
            auth_type := some PROGRAMMATIC_AUTH_LABEL }, .ok) ∧
    some "BC" ≠ some "ABC" := by decide

/-! ### C3 -/

/-- C3 (code bug witnessed at a failing input): a 403 captcha challenge with
`CaptchaToken=abc` retains the captcha token `"bc"`, not `"abc"`, again
because of the `lstrip` character-set stripping; the captcha URL and the
raised `CaptchaRequired` are as the claim states. -/
theorem c3_captcha_lstrip_divergence :
    (ProgrammaticLogin
        ⟨403, "Error=CaptchaRequired\nCaptchaToken=abc\nCaptchaUrl=/x"⟩
        initGDataService)
      = ({ initGDataService with
            captcha_token := some "bc",
            captcha_url := some "https://www.google.com/accounts/Captcha/x" },
         .exCaptchaRequired "Captcha Required") ∧
    some "bc" ≠ some "abc" := by decide

/-! ### C4 -/

/-- C4: whatever captcha state a login attempt starts from, if it completes
with an outcome other than a captcha challenge — a successful status-200
login (a 200 response with an `Auth=` line), a `BadAuthentication` raise, or
the generic error raise of the 403 dispatch — then afterwards the captcha
token and captcha url are both absent. -/
theorem c4_captcha_cleared (resp : LoginResponse) (s : SessionState)
    (h : (resp.status = 200 ∧ ∃ l ∈ splitlines resp.body, pyStartsWith l "Auth=" = true)
       ∨ (ProgrammaticLogin resp s).2.isBadAuth = true
       ∨ (ProgrammaticLogin resp s).2.isGenericError = true) :
    (ProgrammaticLogin resp s).1.captcha_token = none ∧
      (ProgrammaticLogin resp s).1.captcha_url = none := by
  rcases h with ⟨h200, hex⟩ | hdisp
  · unfold ProgrammaticLogin
    simp only [h200, if_true, if_pos]
    exact foldl_loginLine200_captcha _ _ hex
  · by_cases h200 : resp.status = 200
    · unfold ProgrammaticLogin at hdisp
      simp only [h200, if_true, if_pos] at hdisp
      rcases hdisp with hd | hd <;> simp [LoginResult.isBadAuth, LoginResult.isGenericError] at hd
    · by_cases h403 : resp.status = 403
      · unfold ProgrammaticLogin at hdisp ⊢
        simp only [h200, h403, if_false, if_true] at hdisp ⊢
        norm_num at hdisp ⊢
        exact login403dispatch_clears _ hdisp
      · unfold ProgrammaticLogin at hdisp
        simp only [h200, h403, if_false] at hdisp
        rcases hdisp with hd | hd <;>
          simp [LoginResult.isBadAuth, LoginResult.isGenericError] at hd

/-- C4 witness: a `BadAuthentication` outcome starting from a session with
residual captcha state. -/
theorem c4_captcha_cleared_witness :
    (ProgrammaticLogin ⟨403, "Error=BadAuthentication"⟩
        { initGDataService with captcha_token := some "t", captcha_url := some "u" }).1.captcha_token
      = none ∧
    (ProgrammaticLogin ⟨403, "Error=BadAuthentication"⟩
        { initGDataService with captcha_token := some "t", captcha_url := some "u" }).1.captcha_url
      = none :=
  c4_captcha_cleared ⟨403, "Error=BadAuthentication"⟩
    { initGDataService with captcha_token := some "t", captcha_url := some "u" }
    (Or.inr (Or.inl (by decide)))

/-! ### C6 -/

/-- C6 counterexample: a login response with status 500 does not fail at
all — `ProgrammaticLogin` falls through both status branches and returns
normally, contradicting the claim that such a call fails with a generic
authentication error. -/
theorem c6_counterexample :
    ((ProgrammaticLogin ⟨500, "Error=Unknown"⟩ initGDataService).2).raised = false := by
  decide

/-- C6 (amended): for every login attempt whose transport status is neither
200 nor 403, the call returns normally (`None`) and leaves the session state
unchanged. -/
theorem c6_other_status_returns_normally (resp : LoginResponse) (s : SessionState)
    (h200 : resp.status ≠ 200) (h403 : resp.status ≠ 403) :
    ProgrammaticLogin resp s = (s, .ok) := by
  unfold ProgrammaticLogin
  simp [h200, h403]

/-- C6 witness: the amended theorem applied at status 500. -/
theorem c6_other_status_returns_normally_witness :
    ProgrammaticLogin ⟨500, "Error=Unknown"⟩ initGDataService = (initGDataService, .ok) :=
  c6_other_status_returns_normally ⟨500, "Error=Unknown"⟩ initGDataService
    (by decide) (by decide)

/-! ### C5 -/

theorem storeGsessionid_auth (s : SessionState) (l : String) :
    (storeGsessionid s l).auth_token = s.auth_token ∧
    (storeGsessionid s l).auth_type = s.auth_type := by
  unfold storeGsessionid
  split <;> exact ⟨rfl, rfl⟩

theorem Get_state_auth (pf : String → Option Feed) (pe : String → Option Entry)
    (tr : List Response) (s : SessionState) (uri : String) (hd : Headers) (rr : Int) :
    (Get pf pe tr s uri hd rr).state.auth_token = s.auth_token ∧
    (Get pf pe tr s uri hd rr).state.auth_type = s.auth_type := by
  induction tr generalizing s uri hd rr with
  | nil => exact ⟨rfl, rfl⟩
  | cons resp rest ih =>
    simp only [Get]
    repeat' split
    all_goals try exact ⟨rfl, rfl⟩
    all_goals constructor
    all_goals dsimp only
    all_goals first
      | (rw [(ih _ _ _ _).1]; exact (storeGsessionid_auth _ _).1)
      | (rw [(ih _ _ _ _).2]; exact (storeGsessionid_auth _ _).2)

theorem Post_state_auth (pf : String → Option Feed) (pe : String → Option Entry)
    (tr : List Response) (s : SessionState) (data uri : String) (hd : Headers)
    (up : Option (List (String × String))) (esc : Bool) (rr : Int) :
    (Post pf pe tr s data uri hd up esc rr).state.auth_token = s.auth_token ∧
    (Post pf pe tr s data uri hd up esc rr).state.auth_type = s.auth_type := by
  induction tr generalizing s uri hd rr with
  | nil => exact ⟨rfl, rfl⟩
  | cons resp rest ih =>
    simp only [Post]
    repeat' split
    all_goals try exact ⟨rfl, rfl⟩
    all_goals constructor
    all_goals dsimp only
    all_goals first
      | (rw [(ih _ _ _ _).1]; exact (storeGsessionid_auth _ _).1)
      | (rw [(ih _ _ _ _).2]; exact (storeGsessionid_auth _ _).2)

theorem Put_state_auth (pf : String → Option Feed) (pe : String → Option Entry)
    (tr : List Response) (s : SessionState) (data uri : String) (hd : Headers)
    (up : Option (List (String × String))) (esc : Bool) (rr : Int) :
    (Put pf pe tr s data uri hd up esc rr).state.auth_token = s.auth_token ∧
    (Put pf pe tr s data uri hd up esc rr).state.auth_type = s.auth_type := by
  induction tr generalizing s uri hd rr with
  | nil => exact ⟨rfl, rfl⟩
  | cons resp rest ih =>
    simp only [Put]
    repeat' split
    all_goals try exact ⟨rfl, rfl⟩
    all_goals constructor
    all_goals dsimp only
    all_goals first
      | (rw [(ih _ _ _ _).1]; exact (storeGsessionid_auth _ _).1)
      | (rw [(ih _ _ _ _).2]; exact (storeGsessionid_auth _ _).2)

theorem Delete_state_auth (pf : String → Option Feed) (pe : String → Option Entry)
    (tr : List Response) (s : SessionState) (uri : String) (hd : Headers)
    (up : Option (List (String × String))) (esc : Bool) (rr : Int) :
    (Delete pf pe tr s uri hd up esc rr).state.auth_token = s.auth_token ∧
    (Delete pf pe tr s uri hd up esc rr).state.auth_type = s.auth_type := by
  induction tr generalizing s uri hd rr with
  | nil => exact ⟨rfl, rfl⟩
  | cons resp rest ih =>
    simp only [Delete]
    repeat' split
    all_goals try exact ⟨rfl, rfl⟩
    all_goals constructor
    all_goals dsimp only
    all_goals first
      | (rw [(ih _ _ _ _).1]; exact (storeGsessionid_auth _ _).1)
      | (rw [(ih _ _ _ _).2]; exact (storeGsessionid_auth _ _).2)

theorem loginLine200_inv (s : SessionState) (l : String) (h : authInv s) :
    authInv (loginLine200 s l) := by
  unfold loginLine200 authInv at *
  split <;> simp_all

theorem foldl_loginLine200_inv (lines : List String) (s : SessionState)
    (h : authInv s) : authInv (lines.foldl loginLine200 s) := by
  induction lines generalizing s with
  | nil => exact h
  | cons l rest ih => exact ih _ (loginLine200_inv s l h)

theorem loginLine403_auth (p : SessionState × Option String) (l : String) :
    (loginLine403 p l).1.auth_token = p.1.auth_token ∧
    (loginLine403 p l).1.auth_type = p.1.auth_type := by
  unfold loginLine403
  split
  · exact ⟨rfl, rfl⟩
  · split
    · exact ⟨rfl, rfl⟩
    · split <;> exact ⟨rfl, rfl⟩

theorem foldl_loginLine403_auth (lines : List String) (p : SessionState × Option String) :
    (lines.foldl loginLine403 p).1.auth_token = p.1.auth_token ∧
    (lines.foldl loginLine403 p).1.auth_type = p.1.auth_type := by
  induction lines generalizing p with
  | nil => exact ⟨rfl, rfl⟩
  | cons l rest ih =>
    rw [List.foldl_cons]
    rcases ih (loginLine403 p l) with ⟨h1, h2⟩
    rcases loginLine403_auth p l with ⟨h3, h4⟩
    exact ⟨h1.trans h3, h2.trans h4⟩

theorem login403dispatch_auth (p : SessionState × Option String) :
    (login403dispatch p).1.auth_token = p.1.auth_token ∧
    (login403dispatch p).1.auth_type = p.1.auth_type := by
  unfold login403dispatch
  rcases p with ⟨s, _ | el⟩
  · exact ⟨rfl, rfl⟩
  · dsimp only
    split
    · exact ⟨rfl, rfl⟩
    · split <;> exact ⟨rfl, rfl⟩

theorem ProgrammaticLogin_inv (resp : LoginResponse) (s : SessionState)
    (h : authInv s) : authInv (ProgrammaticLogin resp s).1 := by
  unfold ProgrammaticLogin
  split
  · exact foldl_loginLine200_inv _ _ h
  · split
    · unfold authInv
      rw [(login403dispatch_auth _).2, (login403dispatch_auth _).1,
        (foldl_loginLine403_auth _ _).2, (foldl_loginLine403_auth _ _).1]
      exact h
    · exact h

theorem upgradeLine_pres (s : SessionState) (l : String) :
    (upgradeLine s l).auth_type = s.auth_type ∧
    (s.auth_token.isSome = true → (upgradeLine s l).auth_token.isSome = true) := by
  unfold upgradeLine
  split
  · exact ⟨rfl, fun _ => rfl⟩
  · exact ⟨rfl, id⟩

theorem foldl_upgradeLine_pres (lines : List String) (s : SessionState) :
    (lines.foldl upgradeLine s).auth_type = s.auth_type ∧
    (s.auth_token.isSome = true →
      (lines.foldl upgradeLine s).auth_token.isSome = true) := by
  induction lines generalizing s with
  | nil => exact ⟨rfl, id⟩
  | cons l rest ih =>
    rw [List.foldl_cons]
    rcases ih (upgradeLine s l) with ⟨h1, h2⟩
    rcases upgradeLine_pres s l with ⟨h3, h4⟩
    exact ⟨h1.trans h3, fun ht => h2 (h4 ht)⟩

theorem UpgradeToSessionToken_inv (resp : LoginResponse) (s : SessionState)
    (h : authInv s) : authInv (UpgradeToSessionToken resp s).state := by
  unfold UpgradeToSessionToken
  split
  · exact h
  · split
    · rename_i hty _
      push_neg at hty
      unfold authInv at h ⊢
      rcases foldl_upgradeLine_pres (splitlines resp.body) s with ⟨h1, h2⟩
      have htok : s.auth_token.isSome = true := by rw [← h, hty]; rfl
      rw [h1, hty, h2 htok]
      rfl
    · exact h

theorem RevokeAuthSubToken_inv (resp : LoginResponse) (s : SessionState)
    (h : authInv s) : authInv (RevokeAuthSubToken resp s).state := by
  unfold RevokeAuthSubToken
  split
  · exact h
  · split
    · rfl
    · exact h

theorem applyOp_inv (s : SessionState) (op : Op) (hop : op.isSetTokenNone = false)
    (h : authInv s) : authInv (applyOp s op) := by
  cases op with
  | setToken t =>
    cases t with
    | none => simp [Op.isSetTokenNone] at hop
    | some tok => simp [applyOp, SetAuthSubToken, authInv]
  | login r => exact ProgrammaticLogin_inv r s h
  | upgrade r => exact UpgradeToSessionToken_inv r s h
  | revoke r => exact RevokeAuthSubToken_inv r s h
  | doGet pf pe tr uri hd rr =>
    unfold applyOp authInv at *
    rw [(Get_state_auth pf pe tr s uri hd rr).2, (Get_state_auth pf pe tr s uri hd rr).1]
    exact h
  | doPost pf pe tr data uri hd up esc rr =>
    unfold applyOp authInv at *
    rw [(Post_state_auth pf pe tr s data uri hd up esc rr).2,
      (Post_state_auth pf pe tr s data uri hd up esc rr).1]
    exact h
  | doPut pf pe tr data uri hd up esc rr =>
    unfold applyOp authInv at *
    rw [(Put_state_auth pf pe tr s data uri hd up esc rr).2,
      (Put_state_auth pf pe tr s data uri hd up esc rr).1]
    exact h
  | doDelete pf pe tr uri hd up esc rr =>
    unfold applyOp authInv at *
    rw [(Delete_state_auth pf pe tr s uri hd up esc rr).2,
      (Delete_state_auth pf pe tr s uri hd up esc rr).1]
    exact h

/-- C5 counterexample: assigning `None` to the `auth_token` property (a
value the claim explicitly includes) sets the auth type to the AuthSub
label while leaving the token absent, so the reachable state after the
single operation `setToken None` violates the if-and-only-if invariant. -/
theorem c5_counterexample :
    ¬ authInv (runOps initGDataService [Op.setToken none]) := by
  simp [authInv, runOps, applyOp, SetAuthSubToken, initGDataService]

/-- C5 (amended): along every sequence of public operations that never
assigns the absent value to the `auth_token` property, every reachable
session state satisfies: the auth type is set if and only if the auth token
is set. -/
theorem c5_auth_invariant (ops : List Op)
    (h : ∀ op ∈ ops, op.isSetTokenNone = false) :
    authInv (runOps initGDataService ops) := by
  suffices main : ∀ (l : List Op) (s : SessionState),
      (∀ op ∈ l, op.isSetTokenNone = false) → authInv s → authInv (runOps s l) from
    main ops initGDataService h rfl
  intro l
  induction l with
  | nil => exact fun s _ hs => hs
  | cons op rest ih =>
    intro s hl hs
    exact ih _ (fun o ho => hl o (List.mem_cons_of_mem _ ho))
      (applyOp_inv s op (hl op (List.mem_cons_self _ _)) hs)

/-- C5 witness: a concrete operation sequence — external token assignment,
a successful programmatic login, and a revoke attempt — never assigns an
absent token, and the invariant holds at the end. -/
theorem c5_auth_invariant_witness :
    authInv (runOps initGDataService
      [Op.setToken (some "tok"), Op.login ⟨200, "Auth=xyz"⟩, Op.revoke ⟨200, ""⟩]) :=
  c5_auth_invariant
    [Op.setToken (some "tok"), Op.login ⟨200, "Auth=xyz"⟩, Op.revoke ⟨200, ""⟩]
    (by decide)

/-! ### C7 -/

/-- C7: whenever the session's auth type is not the AuthSub label — for any
token value, including an absent one — both `UpgradeToSessionToken` and
`RevokeAuthSubToken` raise `NonAuthSubToken`, perform zero transport calls
and leave the session state unchanged. -/
theorem c7_nonauthsub_guard (resp resp2 : LoginResponse) (s : SessionState)
    (h : s.auth_type ≠ some AUTHSUB_AUTH_LABEL) :
    UpgradeToSessionToken resp s = ⟨s, some .nonAuthSubToken, 0⟩ ∧
    RevokeAuthSubToken resp2 s = ⟨s, some .nonAuthSubToken, 0⟩ := by
  constructor <;> simp [UpgradeToSessionToken, RevokeAuthSubToken, h]

/-- C7 witness: the guard theorem applied to the fresh session (absent token
and type) with concrete 200 responses. -/
theorem c7_nonauthsub_guard_witness :
    UpgradeToSessionToken ⟨200, "Token=zz"⟩ initGDataService
        = ⟨initGDataService, some .nonAuthSubToken, 0⟩ ∧
    RevokeAuthSubToken ⟨200, ""⟩ initGDataService
        = ⟨initGDataService, some .nonAuthSubToken, 0⟩ :=
  c7_nonauthsub_guard ⟨200, "Token=zz"⟩ ⟨200, ""⟩ initGDataService (by decide)

/-! ### C8 -/

theorem pyFindList_eq_none_iff (pat s : List Char) :
    pyFindList pat s = none ↔ hasSub pat s = false := by
  induction s with
  | nil =>
    by_cases h : pat.isPrefixOf ([] : List Char) <;> simp [pyFindList, hasSub, h]
  | cons c rest ih =>
    by_cases h : pat.isPrefixOf (c :: rest) <;>
      simp [pyFindList, hasSub, h, Option.map_eq_none', ih]

theorem addGsessionid_eq (sid : String) (s : SessionState) (uri : String)
    (h : s.gsessionid = some sid) :
    addGsessionid s uri =
      if hasSub "gsessionid=".data uri.data then uri
      else if hasSub "?".data uri.data then uri ++ "&gsessionid=" ++ sid
      else uri ++ "?gsessionid=" ++ sid := by
  unfold addGsessionid pyFind
  rw [h]
  dsimp only
  by_cases h1 : hasSub "gsessionid=".data uri.data
  · rw [if_pos h1, if_neg]
    intro hc
    rw [pyFindList_eq_none_iff] at hc
    rw [hc] at h1
    exact Bool.false_ne_true h1
  · rw [if_neg h1, if_pos ((pyFindList_eq_none_iff _ _).mpr (Bool.not_eq_true _ ▸ h1))]
    by_cases h2 : hasSub "?".data uri.data
    · rw [if_pos h2, if_pos]
      intro hc
      rw [pyFindList_eq_none_iff] at hc
      rw [hc] at h2
      exact Bool.false_ne_true h2
    · rw [if_neg h2, if_neg]
      intro hc
      exact hc ((pyFindList_eq_none_iff _ _).mpr (Bool.not_eq_true _ ▸ h2))

theorem Get_first_uri (pf : String → Option Feed) (pe : String → Option Entry)
    (resp : Response) (rest : List Response) (s : SessionState) (uri : String)
    (hd : Headers) (rr : Int) :
    ((Get pf pe (resp :: rest) s uri hd rr).trace.map Request.uri).head?
      = some (addGsessionid s uri) := by
  simp only [Get]
  repeat' split
  all_goals rfl

theorem Post_first_uri (pf : String → Option Feed) (pe : String → Option Entry)
    (resp : Response) (rest : List Response) (s : SessionState) (data uri : String)
    (hd : Headers) (up : Option (List (String × String))) (esc : Bool) (rr : Int) :
    ((Post pf pe (resp :: rest) s data uri hd up esc rr).trace.map Request.uri).head?
      = some (addGsessionid s uri) := by
  simp only [Post]
  repeat' split
  all_goals rfl

theorem Put_first_uri (pf : String → Option Feed) (pe : String → Option Entry)
    (resp : Response) (rest : List Response) (s : SessionState) (data uri : String)
    (hd : Headers) (up : Option (List (String × String))) (esc : Bool) (rr : Int) :
    ((Put pf pe (resp :: rest) s data uri hd up esc rr).trace.map Request.uri).head?
      = some (addGsessionid s uri) := by
  simp only [Put]
  repeat' split
  all_goals rfl

theorem Delete_first_uri (pf : String → Option Feed) (pe : String → Option Entry)
    (resp : Response) (rest : List Response) (s : SessionState) (uri : String)
    (hd : Headers) (up : Option (List (String × String))) (esc : Bool) (rr : Int) :
    ((Delete pf pe (resp :: rest) s uri hd up esc rr).trace.map Request.uri).head?
      = some (addGsessionid s uri) := by
  simp only [Delete]
  repeat' split
  all_goals rfl

/-- C8 counterexample: with session id `ID` and the URI
`/feeds?x=gsessionid` — whose query string contains `gsessionid`, so the
claim says the URI is passed to the transport unchanged — the code appends
`&gsessionid=ID` anyway, because its check looks for the substring
`gsessionid=` (with the trailing `=`). -/
theorem c8_counterexample :
    ((Get (fun _ => none) (fun _ => none) [⟨200, "", none, "OK"⟩]
        { initGDataService with gsessionid := some "ID" } "/feeds?x=gsessionid" [] 4).trace.map
          Request.uri)
      = ["/feeds?x=gsessionid&gsessionid=ID"] ∧
    claimTransportUri "ID" "/feeds?x=gsessionid" = "/feeds?x=gsessionid" ∧
    ("/feeds?x=gsessionid&gsessionid=ID" : String) ≠ "/feeds?x=gsessionid" := by
  refine ⟨by decide, by decide, by decide⟩

/-- C8 (amended): for every CRUD operation invoked while a session id is
known, the URI of the first request handed to the transport is: the given
URI unchanged when it contains the substring `gsessionid=` anywhere, and
otherwise the given URI with `gsessionid=<id>` appended, using `&` when the
URI contains `?` anywhere and `?` otherwise. -/
theorem c8_session_uri (sid : String) (s : SessionState)
    (hsid : s.gsessionid = some sid) (pf : String → Option Feed)
    (pe : String → Option Entry) (resp : Response) (rest : List Response)
    (uri : String) (hd : Headers) (data : String)
    (up : Option (List (String × String))) (esc : Bool) (rr : Int)
    (expected : String)
    (hexp : expected =
      if hasSub "gsessionid=".data uri.data then uri
      else if hasSub "?".data uri.data then uri ++ "&gsessionid=" ++ sid
      else uri ++ "?gsessionid=" ++ sid) :
    ((Get pf pe (resp :: rest) s uri hd rr).trace.map Request.uri).head?
        = some expected ∧
    ((Post pf pe (resp :: rest) s data uri hd up esc rr).trace.map Request.uri).head?
        = some expected ∧
    ((Put pf pe (resp :: rest) s data uri hd up esc rr).trace.map Request.uri).head?
        = some expected ∧
    ((Delete pf pe (resp :: rest) s uri hd up esc rr).trace.map Request.uri).head?
        = some expected := by
  rw [hexp, ← addGsessionid_eq sid s uri hsid]
  exact ⟨Get_first_uri pf pe resp rest s uri hd rr,
    Post_first_uri pf pe resp rest s data uri hd up esc rr,
    Put_first_uri pf pe resp rest s data uri hd up esc rr,
    Delete_first_uri pf pe resp rest s uri hd up esc rr⟩

/-- C8 witness: both separator branches of the amended theorem at concrete
inputs — a URI with no `?` gets `?gsessionid=ID`, and one with `?` gets
`&gsessionid=ID`. -/
theorem c8_session_uri_witness :
    ((Get (fun _ => none) (fun _ => none) [⟨200, "", none, "OK"⟩]
        { initGDataService with gsessionid := some "ID" } "/feeds" [] 4).trace.map
          Request.uri).head? = some "/feeds?gsessionid=ID" ∧
    ((Get (fun _ => none) (fun _ => none) [⟨200, "", none, "OK"⟩]
        { initGDataService with gsessionid := some "ID" } "/feeds?a=1" [] 4).trace.map
          Request.uri).head? = some "/feeds?a=1&gsessionid=ID" :=
  ⟨(c8_session_uri "ID" { initGDataService with gsessionid := some "ID" } rfl
      (fun _ => none) (fun _ => none) ⟨200, "", none, "OK"⟩ [] "/feeds" [] "d" none true 4
      "/feeds?gsessionid=ID" (by decide)).1,
   (c8_session_uri "ID" { initGDataService with gsessionid := some "ID" } rfl
      (fun _ => none) (fun _ => none) ⟨200, "", none, "OK"⟩ [] "/feeds?a=1" [] "d" none true 4
      "/feeds?a=1&gsessionid=ID" (by decide)).1⟩

/-! ### C9 -/

/-- C9: on a `Query`, setting `max_results` to `v` and then reading
`max_results` returns `v` (for every starting query and every value); and
on a freshly constructed query whose `params` argument does not bind
`author`, reading `author` returns the absent value. -/
theorem c9_query_accessors :
    (∀ (q : Query) (v : String), (q.SetMaxResults v).GetMaxResults = some v) ∧
    (∀ (feed tq : Option String) (ps : List (String × String))
        (cats : Option (List String)),
      (∀ kv ∈ ps, kv.1 ≠ "author") →
      (Query.init feed tq (some ps) cats).GetAuthor = none) := by
  constructor
  · intro q v
    exact dictGet_dictSet_self q.params "max-results" v
  · intro feed tq ps cats h
    unfold Query.init Query.GetAuthor
    rcases cats with _ | cs <;>
      rcases tq with _ | t <;>
      simp only [dictGet_paramsFold ps _ "author" h] <;>
      first
        | rfl
        | (by_cases ht : pyTruthy (some t) = true <;>
            simp [ht, Query.SetTextQuery, dictSet, dictGet])

/-- C9 witness: both halves applied at concrete inputs. -/
theorem c9_query_accessors_witness :
    ((⟨none, [], []⟩ : Query).SetMaxResults "5").GetMaxResults = some "5" ∧
    (Query.init (some "/feeds/x") none (some [("alt", "rss")]) none).GetAuthor = none :=
  ⟨c9_query_accessors.1 ⟨none, [], []⟩ "5",
   c9_query_accessors.2 (some "/feeds/x") none [("alt", "rss")] none (by decide)⟩

/-! ### C10 -/

/-- C10: a 403 login response none of whose body lines starts with `Error=`
makes `ProgrammaticLogin` abort with the unhandled name-resolution error
(the dispatch reads the never-assigned local `error_line`), which is neither
a normal return nor one of the structured exceptions. -/
theorem c10_unassigned_error_line (resp : LoginResponse) (s : SessionState)
    (h403 : resp.status = 403)
    (hno : ∀ l ∈ splitlines resp.body, pyStartsWith l "Error=" = false) :
    (ProgrammaticLogin resp s).2 = .exNameError := by
  unfold ProgrammaticLogin
  simp only [h403]
  norm_num
  unfold login403dispatch
  rw [foldl_loginLine403_none _ _ hno]

/-- C10 witness: a 403 body with only a `CaptchaToken=` line. -/
theorem c10_unassigned_error_line_witness :
    (ProgrammaticLogin ⟨403, "CaptchaToken=zz"⟩ initGDataService).2 = .exNameError :=
  c10_unassigned_error_line ⟨403, "CaptchaToken=zz"⟩ initGDataService
    (by decide) (by decide)

end GData
